import Mathlib

/-!
Verification of the live transform-and-execute pipeline of
`src/pages/examples/ExamplePage.jsx` (the Live Recompiler of the spec).

The pipeline is embedded shallowly:

* The regex-staged declaration rewriter (steps 0-6 in the `useMemo` body,
  lines 85-170) is embedded as character-list scanners.  Each JavaScript
  regex used by the source is simple enough (no quantifier ever competes
  with the literal or character class that follows it, except for the two
  trailing-`export default` patterns, which are treated exactly) that
  greedy maximal-munch scanning coincides with the backtracking semantics
  of the JS engine; each scanner is written to match exactly the language
  of its regex, and `replaceAllWith` mirrors `String.prototype.replace`
  with the `g` flag (leftmost match, continue after the match's end).
* The Babel JSX pass is an external library (`@babel/standalone`), not code
  of this repository; all texts studied here are JSX-free, on which the
  pass is semantics-preserving, so it is modelled as the identity.
* The sandbox executor (`new Function(...)` plus the host JS engine,
  lines 199-215) is embedded as a small fueled interpreter for the
  JavaScript fragment the rewriter emits and the examples use:
  `const`/`let`/`var` declarations (plain and object-destructuring),
  function declarations, `if` blocks, `return`, member assignment,
  `typeof`, `||`, `===`/`!==`, calls, member access, string/number
  literals.  Anything outside the fragment is a structured failure, which
  the recompiler catches like any other error.  Host capability values
  (React, the flow library, dagre, the originally loaded component) are
  modelled as named `hostVal` atoms; `module`/`exports` are mutable heap
  objects, as mutation through `module.exports.default = ...` is essential
  to the pipeline.
* The Live Recompiler state machine (the `useMemo` guard on line 81, the
  catch on lines 216-219, and React's memoization on the dependencies
  `[editedCode, code, OriginalComponent]`) is embedded as `computeBody`
  and an explicit editing-session state with a pipeline-run counter and a
  ghost `lastSuccessText` field recording the text of the most recent
  successful compile (needed only to state the idempotence claim).
-/

/-! ## Character classes (JS `\s`, `\w`, quote characters) -/

/-- JS `\s` restricted to its ASCII members (the only ones arising here). -/
def isJsWs (c : Char) : Bool :=
  c = ' ' || c = '\t' || c = '\n' || c = '\r' || c = '\x0b' || c = '\x0c'

/-- JS `\w`: ASCII letters, digits and underscore. -/
def isWordChar (c : Char) : Bool :=
  c.isAlpha || c.isDigit || c = '_'

/-- The character class `['"]`. -/
def isQuoteChar (c : Char) : Bool :=
  c = '\'' || c = '"'

/-! ## Scanner primitives -/

/-- Match a literal string at the head of the input. -/
def expectLit : List Char → List Char → Option (List Char)
  | [], l => some l
  | _ :: _, [] => none
  | c :: cs, d :: ds => if c = d then expectLit cs ds else none

def expectStr (s : String) (l : List Char) : Option (List Char) :=
  expectLit s.data l

def expectChar (c : Char) : List Char → Option (List Char)
  | d :: ds => if d = c then some ds else none
  | [] => none

/-- `\s+` (greedy). -/
def ws1 : List Char → Option (List Char)
  | c :: cs => if isJsWs c then some (cs.dropWhile isJsWs) else none
  | [] => none

/-- `p+` (greedy), returning the matched text. -/
def takePlus (p : Char → Bool) (l : List Char) : Option (String × List Char) :=
  match l.span p with
  | ([], _) => none
  | (t, r) => some (String.mk t, r)

/-- `\w+` (greedy). -/
def takeWordPlus (l : List Char) : Option (String × List Char) :=
  takePlus isWordChar l

/-- `['"]` as a single-character match. -/
def expectQuote : List Char → Option (List Char)
  | c :: cs => if isQuoteChar c then some cs else none
  | [] => none

/-- `String.prototype.replace` with a `g`-flagged regex: scan left to right,
at each position try the matcher; on a match emit the replacement and resume
right after the match, otherwise keep the character and advance by one. -/
def replaceAllFuel (m : List Char → Option (String × List Char)) :
    Nat → List Char → List Char
  | 0, l => l
  | _ + 1, [] => []
  | fuel + 1, c :: cs =>
    match m (c :: cs) with
    | some (rep, rest) => rep.data ++ replaceAllFuel m fuel rest
    | none => c :: replaceAllFuel m fuel cs

def replaceAllWith (m : List Char → Option (String × List Char)) (s : String) : String :=
  String.mk (replaceAllFuel m s.data.length s.data)

/-- `String.prototype.match` without `g`: the first (leftmost) match. -/
def matchFirstAux {α : Type} (m : List Char → Option α) : Nat → List Char → Option α
  | 0, _ => none
  | fuel + 1, l =>
    match m l with
    | some a => some a
    | none =>
      match l with
      | [] => none
      | _ :: cs => matchFirstAux m fuel cs

def matchFirstS {α : Type} (m : List Char → Option α) (s : String) : Option α :=
  matchFirstAux m (s.data.length + 1) s.data

/-! ## Step 0: CSS / stylesheet import removal (ExamplePage.jsx lines 91-94)

`/import\s+['"][^'"]*\.(css|scss|sass|less)['"];?\s*\n?/g` replaced by
`"// CSS import removed\n"`.  The `['"]` terminator forces the extension
alternative to be a suffix of the quoted run, and `;?\s*\n?` amounts to an
optional semicolon followed by the maximal whitespace run. -/

def isStylePath (path : List Char) : Bool :=
  ".css".data.isSuffixOf path || ".scss".data.isSuffixOf path ||
  ".sass".data.isSuffixOf path || ".less".data.isSuffixOf path

def matchCssImport (l : List Char) : Option (String × List Char) := do
  let l ← expectStr "import" l
  let l ← ws1 l
  let l ← expectQuote l
  let path := l.takeWhile (fun c => !isQuoteChar c)
  let l := l.dropWhile (fun c => !isQuoteChar c)
  let l ← expectQuote l
  if isStylePath path then
    let l := match l with
      | ';' :: r => r
      | _ => l
    some ("// CSS import removed\n", l.dropWhile isJsWs)
  else
    none

/-! ## Step 1: combined default-plus-named imports (lines 97-102)

`/import\s+(\w+)\s*,\s*{([^}]+)}\s+from\s+['"]([^'"]+)['"]/g`. -/

def matchMixedImport (l : List Char) : Option (String × List Char) := do
  let l ← expectStr "import" l
  let l ← ws1 l
  let (d, l) ← takeWordPlus l
  let l := l.dropWhile isJsWs
  let l ← expectChar ',' l
  let l := l.dropWhile isJsWs
  let l ← expectChar '{' l
  let (named, l) ← takePlus (fun c => c ≠ '}') l
  let l ← expectChar '}' l
  let l ← ws1 l
  let l ← expectStr "from" l
  let l ← ws1 l
  let l ← expectQuote l
  let (mo, l) ← takePlus (fun c => !isQuoteChar c) l
  let l ← expectQuote l
  some ("const " ++ d ++ " = require('" ++ mo ++ "').default || require('" ++ mo ++
    "'); const \x7b" ++ named ++ "\x7d = require('" ++ mo ++ "')", l)

/-! ## Step 2: namespace imports (lines 105-110)

`/import\s+\*\s+as\s+(\w+)\s+from\s+['"]([^'"]+)['"]/g`. -/

def matchNamespaceImport (l : List Char) : Option (String × List Char) := do
  let l ← expectStr "import" l
  let l ← ws1 l
  let l ← expectChar '*' l
  let l ← ws1 l
  let l ← expectStr "as" l
  let l ← ws1 l
  let (n, l) ← takeWordPlus l
  let l ← ws1 l
  let l ← expectStr "from" l
  let l ← ws1 l
  let l ← expectQuote l
  let (mo, l) ← takePlus (fun c => !isQuoteChar c) l
  let l ← expectQuote l
  some ("const " ++ n ++ " = require('" ++ mo ++ "')", l)

/-! ## Step 3: named imports (lines 113-118)

`/import\s+{([^}]+)}\s+from\s+['"]([^'"]+)['"]/g`. -/

def matchNamedImport (l : List Char) : Option (String × List Char) := do
  let l ← expectStr "import" l
  let l ← ws1 l
  let l ← expectChar '{' l
  let (imps, l) ← takePlus (fun c => c ≠ '}') l
  let l ← expectChar '}' l
  let l ← ws1 l
  let l ← expectStr "from" l
  let l ← ws1 l
  let l ← expectQuote l
  let (mo, l) ← takePlus (fun c => !isQuoteChar c) l
  let l ← expectQuote l
  some ("const \x7b" ++ imps ++ "\x7d = require('" ++ mo ++ "')", l)

/-! ## Step 4: default imports (lines 121-126)

`/import\s+(\w+)\s+from\s+['"]([^'"]+)['"]/g`. -/

def matchDefaultImport (l : List Char) : Option (String × List Char) := do
  let l ← expectStr "import" l
  let l ← ws1 l
  let (n, l) ← takeWordPlus l
  let l ← ws1 l
  let l ← expectStr "from" l
  let l ← ws1 l
  let l ← expectQuote l
  let (mo, l) ← takePlus (fun c => !isQuoteChar c) l
  let l ← expectQuote l
  some ("const " ++ n ++ " = require('" ++ mo ++ "').default || require('" ++ mo ++ "')", l)

/-! ## Step 5: bare side-effect imports (line 129)

`/import\s+['"]([^'"]+)['"];?\s*\n?/g` replaced by
`"// Side effect import removed\n"`. -/

def matchSideEffectImport (l : List Char) : Option (String × List Char) := do
  let l ← expectStr "import" l
  let l ← ws1 l
  let l ← expectQuote l
  let (_, l) ← takePlus (fun c => !isQuoteChar c) l
  let l ← expectQuote l
  let l := match l with
    | ';' :: r => r
    | _ => l
  some ("// Side effect import removed\n", l.dropWhile isJsWs)

/-- Steps 0-5 in source order (lines 91-129). -/
def rewriteImports (s : String) : String :=
  let p := replaceAllWith matchCssImport s
  let p := replaceAllWith matchMixedImport p
  let p := replaceAllWith matchNamespaceImport p
  let p := replaceAllWith matchNamedImport p
  let p := replaceAllWith matchDefaultImport p
  replaceAllWith matchSideEffectImport p

/-! ## Step 6: export handling (lines 131-170)

The source first extracts a default-export binding name through four `match`
patterns (6.1 function, 6.2 const, 6.3 class, 6.4 trailing identifier), each
`if` assigning `defaultExportName` when its pattern matches — 6.1-6.3 without
checking whether a previous pattern already assigned it, 6.4 guarded by
`!defaultExportName` — and each rewriting its pattern out of the text; then
named exports are normalized away (6.5-6.7). -/

/-- 6.1: `/export\s+default\s+function\s+(\w+)/` (line 136), capture and rest. -/
def matchDefaultFunctionDecl (l : List Char) : Option (String × List Char) := do
  let l ← expectStr "export" l
  let l ← ws1 l
  let l ← expectStr "default" l
  let l ← ws1 l
  let l ← expectStr "function" l
  let l ← ws1 l
  takeWordPlus l

/-- 6.2: `/export\s+default\s+const\s+(\w+)/` (line 143). -/
def matchDefaultConstDecl (l : List Char) : Option (String × List Char) := do
  let l ← expectStr "export" l
  let l ← ws1 l
  let l ← expectStr "default" l
  let l ← ws1 l
  let l ← expectStr "const" l
  let l ← ws1 l
  takeWordPlus l

/-- 6.3: `/export\s+default\s+class\s+(\w+)/` (line 150). -/
def matchDefaultClassDecl (l : List Char) : Option (String × List Char) := do
  let l ← expectStr "export" l
  let l ← ws1 l
  let l ← expectStr "default" l
  let l ← ws1 l
  let l ← expectStr "class" l
  let l ← ws1 l
  takeWordPlus l

/-- Whether the rest of the input fits `\s*;?\s*$` with `$` the end of the
whole input (the un-flagged regex of line 157): only whitespace and at most
one semicolon remain. -/
def tailFitsEndOfInput (l : List Char) : Bool :=
  l.all (fun c => isJsWs c || c = ';') && l.countP (fun c => c = ';') ≤ 1

/-- 6.4 as matched on line 157: `/export\s+default\s+(\w+)\s*;?\s*$/` with
`$` the end of the input (no `m` flag). -/
def matchTrailingDefaultEOS (l : List Char) : Option String := do
  let l ← expectStr "export" l
  let l ← ws1 l
  let l ← expectStr "default" l
  let l ← ws1 l
  let (n, l) ← takeWordPlus l
  if tailFitsEndOfInput l then some n else none

/-- The backtracking tail `\s*;?\s*$` of the `gm`-flagged regex of line 160:
the JS engine settles on the longest stretch of whitespace containing at most
one semicolon whose end sits at a line end (`$` with `m` matches before `\n`
or `\r`, or at the end of the input).  Returns the rest after that stretch. -/
def bestEolStop (l : List Char) (semiUsed : Bool) : Option (List Char) :=
  match l with
  | [] => some []
  | c :: cs =>
    let here : Option (List Char) :=
      if c = '\n' || c = '\r' then some (c :: cs) else none
    if isJsWs c then
      match bestEolStop cs semiUsed with
      | some r => some r
      | none => here
    else if c = ';' && !semiUsed then
      match bestEolStop cs true with
      | some r => some r
      | none => here
    else here

/-- 6.4 as replaced on line 160: `/export\s+default\s+(\w+)\s*;?\s*$/gm`
replaced by the empty string. -/
def matchTrailingDefaultML (l : List Char) : Option (String × List Char) := do
  let l ← expectStr "export" l
  let l ← ws1 l
  let l ← expectStr "default" l
  let l ← ws1 l
  let (_, l) ← takeWordPlus l
  let rest ← bestEolStop l false
  some ("", rest)

/-- 6.5: `/export\s+(const|let|var|function|class)\s+(\w+)/g` replaced by
`"$1 $2"` (line 164).  Alternatives are tried in the regex's order. -/
def matchExportDeclKeyword : List String → List Char → Option (String × List Char)
  | [], _ => none
  | kw :: kws, l =>
    match (do
      let l2 ← expectStr kw l
      let l2 ← ws1 l2
      let (n, l3) ← takeWordPlus l2
      pure (kw ++ " " ++ n, l3)) with
    | some r => some r
    | none => matchExportDeclKeyword kws l

def matchExportDecl (l : List Char) : Option (String × List Char) := do
  let l ← expectStr "export" l
  let l ← ws1 l
  matchExportDeclKeyword ["const", "let", "var", "function", "class"] l

/-- 6.6: `/export\s+{([^}]+)}\s*;?/g` replaced by
`"// Named exports removed"` (line 167). -/
def matchExportList (l : List Char) : Option (String × List Char) := do
  let l ← expectStr "export" l
  let l ← ws1 l
  let l ← expectChar '{' l
  let (_, l) ← takePlus (fun c => c ≠ '}') l
  let l ← expectChar '}' l
  let l := l.dropWhile isJsWs
  let l := match l with
    | ';' :: r => r
    | _ => l
  some ("// Named exports removed", l)

/-- 6.7: `/export\s+default\s+/g` replaced by the empty string (line 170). -/
def matchExportDefaultKw (l : List Char) : Option (String × List Char) := do
  let l ← expectStr "export" l
  let l ← ws1 l
  let l ← expectStr "default" l
  let l ← ws1 l
  some ("", l)

/-- 6.1 (lines 136-140): on a match, record the name and rewrite
`export default function X` to `function X` everywhere. -/
def exportsFnStage (pr : String × Option String) : String × Option String :=
  match matchFirstS (fun l => (matchDefaultFunctionDecl l).map Prod.fst) pr.1 with
  | some n =>
    (replaceAllWith (fun l => (matchDefaultFunctionDecl l).map
      (fun x => ("function " ++ x.1, x.2))) pr.1, some n)
  | none => pr

/-- 6.2 (lines 143-147): a match overwrites any previously recorded name. -/
def exportsConstStage (pr : String × Option String) : String × Option String :=
  match matchFirstS (fun l => (matchDefaultConstDecl l).map Prod.fst) pr.1 with
  | some n =>
    (replaceAllWith (fun l => (matchDefaultConstDecl l).map
      (fun x => ("const " ++ x.1, x.2))) pr.1, some n)
  | none => pr

/-- 6.3 (lines 150-154): a match overwrites any previously recorded name. -/
def exportsClassStage (pr : String × Option String) : String × Option String :=
  match matchFirstS (fun l => (matchDefaultClassDecl l).map Prod.fst) pr.1 with
  | some n =>
    (replaceAllWith (fun l => (matchDefaultClassDecl l).map
      (fun x => ("class " ++ x.1, x.2))) pr.1, some n)
  | none => pr

/-- 6.4 (lines 157-161): guarded by `!defaultExportName`, so it only records
a name when none of 6.1-6.3 matched; the removal also only happens then. -/
def exportsTrailingStage (pr : String × Option String) : String × Option String :=
  match matchFirstS matchTrailingDefaultEOS pr.1, pr.2 with
  | some n, none => (replaceAllWith matchTrailingDefaultML pr.1, some n)
  | _, _ => pr

/-- 6.5-6.7 (lines 164-170). -/
def exportsCleanup (p : String) : String :=
  let p := replaceAllWith matchExportDecl p
  let p := replaceAllWith matchExportList p
  replaceAllWith matchExportDefaultKw p

/-- The whole of step 6 (lines 131-170): the processed text and the recorded
default-export binding name. -/
def processExports (s : String) : String × Option String :=
  let r := exportsTrailingStage (exportsClassStage (exportsConstStage (exportsFnStage (s, none))))
  (exportsCleanup r.1, r.2)

/-! ## The executed JavaScript fragment: syntax -/

/-- Expressions of the fragment the pipeline emits and the examples use. -/
inductive JSExpr where
  | num (n : Int)
  | str (s : String)
  | ident (x : String)
  | jsTypeof (e : JSExpr)
  | member (e : JSExpr) (field : String)
  | call (f : JSExpr) (args : List JSExpr)
  | orElse (a b : JSExpr)
  | strictEq (a b : JSExpr)
  | strictNeq (a b : JSExpr)

/-- Statements of the fragment. -/
inductive JSStmt where
  | constDecl (x : String) (e : JSExpr)
  | destrDecl (xs : List String) (e : JSExpr)
  | funDecl (name : String) (params : List String) (body : List JSStmt)
  | ifThen (cond : JSExpr) (thenB : List JSStmt)
  | ret (e : Option JSExpr)
  | setMember (target : JSExpr) (field : String) (e : JSExpr)
  | exprStmt (e : JSExpr)

/-- Runtime values.  Objects created by executed code that must be mutable
(`module`, `exports`) live on a heap and are passed as `ref`; registry
capability objects are immutable `obj` values.  Host-provided capabilities
whose internals the pipeline never inspects (the React runtime, the flow
library, dagre, the originally loaded component, the stub default export)
are named `hostVal` atoms; `hostRequire` is the injected `require`. -/
inductive JSValue where
  | undefV
  | jsNull
  | boolean (b : Bool)
  | num (n : Int)
  | str (s : String)
  | obj (fields : List (String × JSValue))
  | ref (addr : Nat)
  | closure (params : List String) (body : List JSStmt) (env : List (String × JSValue))
  | hostRequire (registry : List (String × JSValue))
  | hostVal (name : String)

abbrev JSEnv := List (String × JSValue)

abbrev JSHeap := List (Nat × List (String × JSValue))

/-! ## Tokenizer -/

inductive JSTok where
  | id (s : String)
  | num (n : Int)
  | strLit (s : String)
  | punct (s : String)
  deriving DecidableEq

def charsToNat : List Char → Nat → Nat
  | [], acc => acc
  | c :: cs, acc => charsToNat cs (acc * 10 + (c.toNat - '0'.toNat))

def isPunctChar (c : Char) : Bool :=
  c = '.' || c = ',' || c = ';' || c = '(' || c = ')' || c = '{' || c = '}' ||
  c = '=' || c = '!' || c = '|' || c = '*'

/-- One token step: the token (or none for whitespace/comment) and the rest. -/
def nextToken (l : List Char) : Except String (Option JSTok × List Char) :=
  match l with
  | [] => .ok (none, [])
  | c :: cs =>
    if isJsWs c then .ok (none, cs)
    else if c = '/' then
      match cs with
      | '/' :: rest => .ok (none, rest.dropWhile (fun d => d ≠ '\n'))
      | _ => .error "unexpected character: /"
    else if c.isDigit then
      match (c :: cs).span Char.isDigit with
      | (ds, rest) => .ok (some (.num (Int.ofNat (charsToNat ds 0))), rest)
    else if isWordChar c then
      match (c :: cs).span isWordChar with
      | (ws, rest) => .ok (some (.id (String.mk ws)), rest)
    else if isQuoteChar c then
      match cs.span (fun d => d ≠ c) with
      | (txt, rest) =>
        match rest with
        | _ :: rest2 => .ok (some (.strLit (String.mk txt)), rest2)
        | [] => .error "unterminated string literal"
    else
      match l with
      | '=' :: '=' :: '=' :: rest => .ok (some (.punct "==="), rest)
      | '!' :: '=' :: '=' :: rest => .ok (some (.punct "!=="), rest)
      | '|' :: '|' :: rest => .ok (some (.punct "||"), rest)
      | d :: rest =>
        if isPunctChar d then .ok (some (.punct (String.mk [d])), rest)
        else .error ("unexpected character: " ++ String.mk [d])
      | [] => .error "unexpected end of input"

def tokenize : Nat → List Char → Except String (List JSTok)
  | 0, _ => .error "tokenizer ran out of fuel"
  | fuel + 1, l =>
    match l with
    | [] => .ok []
    | _ :: _ =>
      match nextToken l with
      | .error e => .error e
      | .ok (t, rest) =>
        match tokenize fuel rest with
        | .error e => .error e
        | .ok ts =>
          match t with
          | some tok => .ok (tok :: ts)
          | none => .ok ts

/-! ## Parser (recursive descent over the token list, fueled) -/

def skipSemi : List JSTok → List JSTok
  | .punct ";" :: r => r
  | toks => toks

mutual

def parseOrE : Nat → List JSTok → Except String (JSExpr × List JSTok)
  | 0, _ => .error "parser ran out of fuel"
  | fuel + 1, toks => do
    let (a, toks2) ← parseEqE fuel toks
    parseOrTail fuel a toks2

def parseOrTail : Nat → JSExpr → List JSTok → Except String (JSExpr × List JSTok)
  | 0, _, _ => .error "parser ran out of fuel"
  | fuel + 1, a, toks =>
    match toks with
    | .punct "||" :: rest => do
      let (b, toks2) ← parseEqE fuel rest
      parseOrTail fuel (.orElse a b) toks2
    | _ => .ok (a, toks)

def parseEqE : Nat → List JSTok → Except String (JSExpr × List JSTok)
  | 0, _ => .error "parser ran out of fuel"
  | fuel + 1, toks => do
    let (a, toks2) ← parseUnaryE fuel toks
    match toks2 with
    | .punct "===" :: rest => do
      let (b, toks3) ← parseUnaryE fuel rest
      .ok (.strictEq a b, toks3)
    | .punct "!==" :: rest => do
      let (b, toks3) ← parseUnaryE fuel rest
      .ok (.strictNeq a b, toks3)
    | _ => .ok (a, toks2)

def parseUnaryE : Nat → List JSTok → Except String (JSExpr × List JSTok)
  | 0, _ => .error "parser ran out of fuel"
  | fuel + 1, toks =>
    match toks with
    | .id "typeof" :: rest => do
      let (e, toks2) ← parseUnaryE fuel rest
      .ok (.jsTypeof e, toks2)
    | _ => parsePostfixE fuel toks

def parsePostfixE : Nat → List JSTok → Except String (JSExpr × List JSTok)
  | 0, _ => .error "parser ran out of fuel"
  | fuel + 1, toks => do
    let (e, toks2) ← parsePrimaryE fuel toks
    parsePostfixTail fuel e toks2

def parsePostfixTail : Nat → JSExpr → List JSTok → Except String (JSExpr × List JSTok)
  | 0, _, _ => .error "parser ran out of fuel"
  | fuel + 1, e, toks =>
    match toks with
    | .punct "." :: .id f :: rest => parsePostfixTail fuel (.member e f) rest
    | .punct "(" :: .punct ")" :: rest => parsePostfixTail fuel (.call e []) rest
    | .punct "(" :: rest => do
      let (args, toks2) ← parseArgsE fuel rest
      parsePostfixTail fuel (.call e args) toks2
    | _ => .ok (e, toks)

def parseArgsE : Nat → List JSTok → Except String (List JSExpr × List JSTok)
  | 0, _ => .error "parser ran out of fuel"
  | fuel + 1, toks => do
    let (a, toks2) ← parseOrE fuel toks
    match toks2 with
    | .punct "," :: rest => do
      let (more, toks3) ← parseArgsE fuel rest
      .ok (a :: more, toks3)
    | .punct ")" :: rest => .ok ([a], rest)
    | _ => .error "expected comma or closing parenthesis in argument list"

def parsePrimaryE : Nat → List JSTok → Except String (JSExpr × List JSTok)
  | 0, _ => .error "parser ran out of fuel"
  | fuel + 1, toks =>
    match toks with
    | .num n :: rest => .ok (.num n, rest)
    | .strLit s :: rest => .ok (.str s, rest)
    | .id x :: rest => .ok (.ident x, rest)
    | .punct "(" :: rest => do
      let (e, toks2) ← parseOrE fuel rest
      match toks2 with
      | .punct ")" :: rest2 => .ok (e, rest2)
      | _ => .error "expected closing parenthesis"
    | _ => .error "unexpected token in expression"

end

def parseNameList : Nat → List JSTok → Except String (List String × List JSTok)
  | 0, _ => .error "parser ran out of fuel"
  | fuel + 1, toks =>
    match toks with
    | .id x :: .punct "," :: rest => do
      let (xs, rest2) ← parseNameList fuel rest
      .ok (x :: xs, rest2)
    | .id x :: .punct "\x7d" :: rest => .ok ([x], rest)
    | _ => .error "expected identifier list"

def parseParamList : Nat → List JSTok → Except String (List String × List JSTok)
  | 0, _ => .error "parser ran out of fuel"
  | fuel + 1, toks =>
    match toks with
    | .punct ")" :: rest => .ok ([], rest)
    | .id x :: .punct "," :: rest => do
      let (xs, rest2) ← parseParamList fuel rest
      .ok (x :: xs, rest2)
    | .id x :: .punct ")" :: rest => .ok ([x], rest)
    | _ => .error "expected parameter list"

mutual

def parseStmt : Nat → List JSTok → Except String (JSStmt × List JSTok)
  | 0, _ => .error "parser ran out of fuel"
  | fuel + 1, toks =>
    match toks with
    | .id "const" :: rest => parseDeclTail fuel rest
    | .id "let" :: rest => parseDeclTail fuel rest
    | .id "var" :: rest => parseDeclTail fuel rest
    | .id "function" :: .id n :: .punct "(" :: rest => do
      let (ps, r2) ← parseParamList fuel rest
      match r2 with
      | .punct "\x7b" :: r3 => do
        let (body, r4) ← parseStmtList fuel r3
        match r4 with
        | .punct "\x7d" :: r5 => .ok (.funDecl n ps body, r5)
        | _ => .error "expected closing brace after function body"
      | _ => .error "expected opening brace after function parameters"
    | .id "if" :: .punct "(" :: rest => do
      let (c, r2) ← parseOrE fuel rest
      match r2 with
      | .punct ")" :: .punct "\x7b" :: r3 => do
        let (body, r4) ← parseStmtList fuel r3
        match r4 with
        | .punct "\x7d" :: r5 => .ok (.ifThen c body, r5)
        | _ => .error "expected closing brace after if body"
      | _ => .error "expected condition close and block open after if"
    | .id "return" :: rest =>
      match rest with
      | .punct ";" :: r2 => .ok (.ret none, r2)
      | .punct "\x7d" :: _ => .ok (.ret none, rest)
      | [] => .ok (.ret none, [])
      | _ => do
        let (e, r2) ← parseOrE fuel rest
        .ok (.ret (some e), skipSemi r2)
    | .id "class" :: _ => .error "unsupported statement: class declaration"
    | _ => do
      let (e, toks2) ← parseOrE fuel toks
      match toks2 with
      | .punct "=" :: rest => do
        let (v, r2) ← parseOrE fuel rest
        match e with
        | .member b f => .ok (.setMember b f v, skipSemi r2)
        | _ => .error "unsupported assignment target"
      | _ => .ok (.exprStmt e, skipSemi toks2)

def parseDeclTail : Nat → List JSTok → Except String (JSStmt × List JSTok)
  | 0, _ => .error "parser ran out of fuel"
  | fuel + 1, toks =>
    match toks with
    | .punct "\x7b" :: rest => do
      let (xs, r2) ← parseNameList fuel rest
      match r2 with
      | .punct "=" :: r3 => do
        let (e, r4) ← parseOrE fuel r3
        .ok (.destrDecl xs e, skipSemi r4)
      | _ => .error "expected initializer in destructuring declaration"
    | .id x :: .punct "=" :: rest => do
      let (e, r2) ← parseOrE fuel rest
      .ok (.constDecl x e, skipSemi r2)
    | _ => .error "expected declaration"

def parseStmtList : Nat → List JSTok → Except String (List JSStmt × List JSTok)
  | 0, _ => .error "parser ran out of fuel"
  | fuel + 1, toks =>
    match toks with
    | [] => .ok ([], [])
    | .punct "\x7d" :: _ => .ok ([], toks)
    | _ => do
      let (s, r2) ← parseStmt fuel toks
      let (ss, r3) ← parseStmtList fuel r2
      .ok (s :: ss, r3)

end

/-- Parse a whole program: every token must be consumed. -/
def parseProgram (toks : List JSTok) : Except String (List JSStmt) := do
  let (ss, rest) ← parseStmtList (8 * toks.length + 64) toks
  match rest with
  | [] => .ok ss
  | _ => .error "unexpected token after statement"

/-! ## Runtime semantics -/

/-- JS truthiness. -/
def jsToBool : JSValue → Bool
  | .undefV => false
  | .jsNull => false
  | .boolean b => b
  | .num n => n != 0
  | .str s => s != ""
  | _ => true

/-- JS `typeof`.  Host capability atoms stand for the namespace objects the
page injects (`React`, `ReactFlow`, `dagre`), hence `"object"`; no value
whose `typeof` the pipeline inspects is a `hostVal`. -/
def typeofV : JSValue → String
  | .undefV => "undefined"
  | .jsNull => "object"
  | .boolean _ => "boolean"
  | .num _ => "number"
  | .str _ => "string"
  | .obj _ => "object"
  | .ref _ => "object"
  | .closure _ _ _ => "function"
  | .hostRequire _ => "function"
  | .hostVal _ => "object"

/-- JS `===`.  Two `obj`, `closure` or `hostRequire` values compare by
reference in JS and every evaluation here produces a fresh reference, so
they compare unequal; `hostVal` atoms are persistent host objects and
compare by identity (their name). -/
def strictEqV : JSValue → JSValue → Bool
  | .undefV, .undefV => true
  | .jsNull, .jsNull => true
  | .boolean a, .boolean b => a == b
  | .num a, .num b => a == b
  | .str a, .str b => a == b
  | .ref a, .ref b => a == b
  | .hostVal a, .hostVal b => a == b
  | _, _ => false

def assocSet (fs : List (String × JSValue)) (f : String) (v : JSValue) :
    List (String × JSValue) :=
  if fs.any (fun q => q.1 = f) then fs.map (fun q => if q.1 = f then (q.1, v) else q)
  else fs ++ [(f, v)]

def heapGet (h : JSHeap) (a : Nat) : List (String × JSValue) :=
  match h.lookup a with
  | some fs => fs
  | none => []

def heapSetField (h : JSHeap) (a : Nat) (f : String) (v : JSValue) : JSHeap :=
  h.map (fun p => if p.1 = a then (p.1, assocSet p.2 f v) else p)

/-- The properties every plain object literal inherits from
`Object.prototype` and reads through the prototype chain when the own keys
miss: the standard methods, `constructor`, and the `__proto__` accessor
(whose read yields `Object.prototype` itself).  Every one of these reads
produces a truthy value; each is modelled as a named host atom. -/
def objectProtoProps : List (String × JSValue) :=
  [("constructor", .hostVal "Object"),
   ("hasOwnProperty", .hostVal "Object.prototype.hasOwnProperty"),
   ("isPrototypeOf", .hostVal "Object.prototype.isPrototypeOf"),
   ("propertyIsEnumerable", .hostVal "Object.prototype.propertyIsEnumerable"),
   ("toLocaleString", .hostVal "Object.prototype.toLocaleString"),
   ("toString", .hostVal "Object.prototype.toString"),
   ("valueOf", .hostVal "Object.prototype.valueOf"),
   ("__defineGetter__", .hostVal "Object.prototype.__defineGetter__"),
   ("__defineSetter__", .hostVal "Object.prototype.__defineSetter__"),
   ("__lookupGetter__", .hostVal "Object.prototype.__lookupGetter__"),
   ("__lookupSetter__", .hostVal "Object.prototype.__lookupSetter__"),
   ("__proto__", .hostVal "Object.prototype")]

/-- The JS property read `o[name]` on a plain object: the own keys first,
then the `Object.prototype` chain. -/
def objLitGet (fs : List (String × JSValue)) (name : String) : Option JSValue :=
  match fs.lookup name with
  | some v => some v
  | none => objectProtoProps.lookup name

/-- Property read.  Reading from `undefined`/`null` throws, as in JS;
objects (immutable registry values and heap objects alike) read own keys
and then the `Object.prototype` chain; reads from primitives and host atoms
(never performed by the texts studied here) are modelled as `undefined`. -/
def memberGet (h : JSHeap) (v : JSValue) (f : String) : Except String JSValue :=
  match v with
  | .undefV => .error ("Cannot read properties of undefined (reading '" ++ f ++ "')")
  | .jsNull => .error ("Cannot read properties of null (reading '" ++ f ++ "')")
  | .obj fs =>
    .ok (match objLitGet fs f with
      | some w => w
      | none => .undefV)
  | .ref a =>
    .ok (match objLitGet (heapGet h a) f with
      | some w => w
      | none => .undefV)
  | _ => .ok .undefV

/-- Lines 192-197 of ExamplePage.jsx: the injected `require`.  The test
mirrors `if (moduleMap[moduleName])`: `moduleMap` is a plain object
literal, so the property read includes the `Object.prototype` chain, and
any truthy result — a table entry or an inherited property — is returned;
only a falsy read falls through to the `throw`. -/
def requireLookup (reg : List (String × JSValue)) (name : String) : Except String JSValue :=
  match objLitGet reg name with
  | some v => if jsToBool v then .ok v else .error ("Cannot find module: " ++ name)
  | none => .error ("Cannot find module: " ++ name)

def bindParams : List String → List JSValue → JSEnv
  | [], _ => []
  | p :: ps, [] => (p, .undefV) :: bindParams ps []
  | p :: ps, v :: vs => (p, v) :: bindParams ps vs

/-- Object destructuring: bind each name to the corresponding property. -/
def destrBind (h : JSHeap) (v : JSValue) : List String → JSEnv → Except String JSEnv
  | [], env => .ok env
  | x :: xs, env =>
    match memberGet h v x with
    | .ok w => destrBind h v xs ((x, w) :: env)
    | .error m => .error m

mutual

def evalExpr : Nat → JSEnv → JSHeap → JSExpr → Except String (JSValue × JSHeap)
  | 0, _, _, _ => .error "evaluation ran out of fuel"
  | fuel + 1, env, h, e =>
    match e with
    | .num n => .ok (.num n, h)
    | .str s => .ok (.str s, h)
    | .ident x =>
      match env.lookup x with
      | some v => .ok (v, h)
      | none => .error (x ++ " is not defined")
    | .jsTypeof (.ident x) =>
      match env.lookup x with
      | some v => .ok (.str (typeofV v), h)
      | none => .ok (.str "undefined", h)
    | .jsTypeof e1 => do
      let (v, h2) ← evalExpr fuel env h e1
      .ok (.str (typeofV v), h2)
    | .member e1 f => do
      let (v, h2) ← evalExpr fuel env h e1
      let w ← memberGet h2 v f
      .ok (w, h2)
    | .call f args => do
      let (fv, h2) ← evalExpr fuel env h f
      let (vs, h3) ← evalArgs fuel env h2 args
      callFunction fuel h3 fv vs
    | .orElse a b => do
      let (v, h2) ← evalExpr fuel env h a
      if jsToBool v then .ok (v, h2) else evalExpr fuel env h2 b
    | .strictEq a b => do
      let (v, h2) ← evalExpr fuel env h a
      let (w, h3) ← evalExpr fuel env h2 b
      .ok (.boolean (strictEqV v w), h3)
    | .strictNeq a b => do
      let (v, h2) ← evalExpr fuel env h a
      let (w, h3) ← evalExpr fuel env h2 b
      .ok (.boolean (!strictEqV v w), h3)

def evalArgs : Nat → JSEnv → JSHeap → List JSExpr → Except String (List JSValue × JSHeap)
  | 0, _, _, _ => .error "evaluation ran out of fuel"
  | fuel + 1, env, h, args =>
    match args with
    | [] => .ok ([], h)
    | a :: rest => do
      let (v, h2) ← evalExpr fuel env h a
      let (vs, h3) ← evalArgs fuel env h2 rest
      .ok (v :: vs, h3)

def callFunction : Nat → JSHeap → JSValue → List JSValue → Except String (JSValue × JSHeap)
  | 0, _, _, _ => .error "evaluation ran out of fuel"
  | fuel + 1, h, fv, args =>
    match fv with
    | .closure params body cenv => do
      let (_, h2, r) ← evalStmts fuel (bindParams params args ++ cenv) h body
      .ok ((match r with
        | some v => v
        | none => .undefV), h2)
    | .hostRequire reg =>
      match args with
      | .str name :: _ => do
        let v ← requireLookup reg name
        .ok (v, h)
      | _ => .error "require expects a module name string"
    | _ => .error "value is not a function"

/-- Runs a statement list; the third component is an early `return` value.
Block-scoped bindings of an `if` body do not leak (the env is dropped, the
heap is kept), matching `const`/`let` scoping. -/
def evalStmts : Nat → JSEnv → JSHeap → List JSStmt → Except String (JSEnv × JSHeap × Option JSValue)
  | 0, _, _, _ => .error "evaluation ran out of fuel"
  | fuel + 1, env, h, stmts =>
    match stmts with
    | [] => .ok (env, h, none)
    | s :: rest =>
      match s with
      | .constDecl x e => do
        let (v, h2) ← evalExpr fuel env h e
        evalStmts fuel ((x, v) :: env) h2 rest
      | .destrDecl xs e => do
        let (v, h2) ← evalExpr fuel env h e
        let env2 ← destrBind h2 v xs env
        evalStmts fuel env2 h2 rest
      | .funDecl n ps body => evalStmts fuel ((n, .closure ps body env) :: env) h rest
      | .ifThen c body => do
        let (v, h2) ← evalExpr fuel env h c
        if jsToBool v then do
          let (_, h3, r) ← evalStmts fuel env h2 body
          match r with
          | some rv => .ok (env, h3, some rv)
          | none => evalStmts fuel env h3 rest
        else evalStmts fuel env h2 rest
      | .ret none => .ok (env, h, some .undefV)
      | .ret (some e) => do
        let (v, h2) ← evalExpr fuel env h e
        .ok (env, h2, some v)
      | .setMember t f e => do
        let (tv, h2) ← evalExpr fuel env h t
        let (v, h3) ← evalExpr fuel env h2 e
        match tv with
        | .ref a => evalStmts fuel env (heapSetField h3 a f v) rest
        | _ => .error "unsupported assignment target"
      | .exprStmt e => do
        let (_, h2) ← evalExpr fuel env h e
        evalStmts fuel env h2 rest

end

/-! ## The pipeline (useMemo body, lines 85-215) -/

/-- Modelled from the spec: the Markup Compiler of §4.2 is delegated to the
external `@babel/standalone` library (line 173 of ExamplePage.jsx), which is
not code of this repository.  It rewrites embedded markup expressions into
function calls and leaves markup-free text with equivalent semantics; every
text studied in this development is markup-free, so the pass is modelled as
the identity. -/
def babelTransform (s : String) : Except String String := .ok s

/-- Lines 85-181: import rewriting, export normalization, the markup pass,
and the appended guarded default-export assignment (line 180:
`\nif (typeof N !== 'undefined') { module.exports.default = N; }`).
Returns the executable text and the recorded default-binding name. -/
def compileUnit (editedCode : String) : Except String (String × Option String) := do
  let p := rewriteImports editedCode
  let (p, name) := processExports p
  let t ← babelTransform p
  let t := match name with
    | some n =>
      t ++ "\nif (typeof " ++ n ++ " !== 'undefined') \x7b module.exports.default = " ++
        n ++ "; \x7d"
    | none => t
  .ok (t, name)

/-- Lines 184-189: the Capability Registry (`moduleMap`). -/
def moduleMap : List (String × JSValue) :=
  [("react", .hostVal "React"),
   ("react-dom", .obj [("default", .jsNull)]),
   ("@xyflow/react", .hostVal "ReactFlow"),
   ("dagre", .hostVal "dagre")]

/-- Lines 200-201: `const exports = {}` at address 0 and
`const module = { exports }` at address 1. -/
def initialHeap : JSHeap := [(0, []), (1, [("exports", JSValue.ref 0)])]

/-- Line 204-206: the scope of `new Function("React", "require", "module",
"exports", ...)` applied to `(React, requireFn, module, exports)`. -/
def initialEnv (reg : List (String × JSValue)) : JSEnv :=
  [("React", .hostVal "React"), ("require", .hostRequire reg),
   ("module", .ref 1), ("exports", .ref 0)]

/-- Tokenize, parse and run a program in the executor's scope, returning the
final top-level environment and heap. -/
def runProgram (text : String) (reg : List (String × JSValue)) :
    Except String (JSEnv × JSHeap) := do
  let toks ← tokenize (text.data.length + 1) text.data
  let stmts ← parseProgram toks
  let (env, h, _) ← evalStmts (8 * text.data.length + 64) (initialEnv reg) initialHeap stmts
  .ok (env, h)

/-- The final top-level bindings an executed text produces (used to state
rewrite correctness against a stub registry, spec §8). -/
def execBindings (text : String) (reg : List (String × JSValue)) : Except String JSEnv :=
  (runProgram text reg).map Prod.fst

/-- Line 209: `const Component = module.exports.default || module.exports`. -/
def executeCompiled (text : String) (reg : List (String × JSValue)) :
    Except String JSValue := do
  let (_, h) ← runProgram text reg
  let me ← memberGet h (JSValue.ref 1) "exports"
  let d ← memberGet h me "default"
  .ok (if jsToBool d then d else me)

/-- The pipeline up to and including execution (lines 85-209): the produced
exported value before the function check. -/
def executePipelineValue (s : String) : Except String JSValue := do
  let (t, _) ← compileUnit s
  executeCompiled t moduleMap

/-- Lines 211-215: accept the produced value only when
`typeof Component === "function"`, otherwise throw `组件必须是一个函数`. -/
def runPipeline (s : String) : Except String JSValue :=
  match executePipelineValue s with
  | .ok c => if typeofV c = "function" then .ok c else .error "组件必须是一个函数"
  | .error m => .error m

/-- Call a produced component with no arguments on an empty heap. -/
def invokeComponent (v : JSValue) : Except String JSValue :=
  (callFunction 100000 [] v []).map Prod.fst

/-! ## The Live Recompiler state (lines 80-83, 216-225) -/

/-- The `RenderState` of the spec: the displayed component and the optional
diagnostic published through `previewError`. -/
structure RenderOutcome where
  component : JSValue
  error : Option String

/-- The originally loaded, pre-edit compiled component
(`componentMap[example.component]`, line 77): an opaque host value.  The
session is modelled for a selected example whose original component exists
(otherwise the page navigates away, lines 236-243). -/
def OriginalComponent : JSValue := .hostVal "OriginalComponent"

/-- The body of the `useMemo` (lines 80-220): the guard
`!OriginalComponent || !editedCode || editedCode === code` (line 81) skips
the pipeline, and the `catch` (lines 216-219) maps any failure to the
original component plus the failure's message.  The boolean records whether
the pipeline (the `try` block) ran. -/
def computeBody (code editedCode : String) : RenderOutcome × Bool :=
  if editedCode = "" ∨ editedCode = code then
    ({ component := OriginalComponent, error := none }, false)
  else
    match runPipeline editedCode with
    | .ok c => ({ component := c, error := none }, true)
    | .error m => ({ component := OriginalComponent, error := some m }, true)

/-- An editing-session event: the editor publishes full-text replacements. -/
inductive EditEvent where
  | edit (s : String)

/-- One editing session.  `code` is the baseline text loaded for the example
(set once, then constant); `editedCode` the current editor text; `prevDeps`
the memo key `(editedCode, code)` of the previous render; `pipelineRuns`
counts executions of the `try` block; `lastSuccessText` is ghost state
recording the text of the most recent successful compile (the baseline
itself compiles at load time). -/
structure SessionState where
  code : String
  editedCode : String
  prevDeps : Option (String × String)
  pipelineRuns : Nat
  lastSuccessText : Option String

/-- The state right after the example's source is loaded (lines 40-43 set
both `code` and `editedCode` to the loaded text) and the first render ran
the memo with `editedCode === code`. -/
def initSession (b : String) : SessionState :=
  { code := b, editedCode := b, prevDeps := some (b, b), pipelineRuns := 0,
    lastSuccessText := some b }

/-- One text-change event followed by a render: `useMemo` recomputes exactly
when the memo key `(editedCode, code)` changed. -/
def stepSession (st : SessionState) : EditEvent → SessionState
  | .edit s =>
    if st.prevDeps = some (s, st.code) then { st with editedCode := s }
    else
      match computeBody st.code s with
      | (out, ran) =>
        { st with
          editedCode := s
          prevDeps := some (s, st.code)
          pipelineRuns := st.pipelineRuns + (if ran then 1 else 0)
          lastSuccessText :=
            if ran && out.error.isNone then some s else st.lastSuccessText }

def runSession (b : String) (evs : List EditEvent) : SessionState :=
  evs.foldl stepSession (initSession b)

/-- What the page displays in a state: `DynamicComponent` and
`previewError`.  The memo caches a pure function of the key, so the cached
outcome equals the recomputed one. -/
def renderOf (st : SessionState) : RenderOutcome :=
  (computeBody st.code st.editedCode).1

/-- Discriminates host atoms from values built by executed code (reference
identity: a pipeline-produced component is a fresh object, never the host's
`OriginalComponent`). -/
def isHostVal : JSValue → Bool
  | .hostVal _ => true
  | _ => false

/-! ## Concrete texts used by the theorems -/

/-- The default-binding capture input of spec §8. -/
def widgetSrc : String := "export default function Widget()\x7b return 1 \x7d"

/-- Its compiled unit: the normalized declaration plus the appended guarded
default-export assignment. -/
def widgetCompiled : String :=
  "function Widget()\x7b return 1 \x7d\nif (typeof Widget !== 'undefined') \x7b module.exports.default = Widget; \x7d"

/-- A source with two competing default-export forms (function, then class). -/
def dupDefaultSrc : String :=
  "export default function A()\x7b\x7d\nexport default class B\x7b\x7d"

/-- A source whose only default export is a trailing identifier reference. -/
def trailingRefSrc : String := "const A = 1\nexport default A"

/-- The stub capability registry of spec §8: `{ "m": { default: X, a: 1, b: 2 } }`. -/
def stubX : JSValue := .hostVal "X"

def stubRegistry : List (String × JSValue) :=
  [("m", .obj [("default", stubX), ("a", .num 1), ("b", .num 2)])]

/-! ## General lemmas -/

theorem computeBody_guard_skip (c e : String) (h : e = "" ∨ e = c) :
    computeBody c e = ({ component := OriginalComponent, error := none }, false) := by
  unfold computeBody
  rw [if_pos h]

theorem computeBody_of_error (c e m : String) (h1 : e ≠ "") (h2 : e ≠ c)
    (h3 : runPipeline e = .error m) :
    computeBody c e = ({ component := OriginalComponent, error := some m }, true) := by
  unfold computeBody
  rw [if_neg (fun hor => Or.elim hor h1 h2), h3]

theorem computeBody_component_cases (c e : String) :
    (computeBody c e).1.component = OriginalComponent ∨
    runPipeline e = .ok ((computeBody c e).1.component) := by
  unfold computeBody
  split
  · exact Or.inl rfl
  · cases h : runPipeline e with
    | ok v => exact Or.inr rfl
    | error m => exact Or.inl rfl

theorem stepSession_code (st : SessionState) (s : String) :
    (stepSession st (.edit s)).code = st.code := by
  simp only [stepSession]
  split
  · rfl
  · cases computeBody st.code s
    rfl

theorem stepSession_editedCode (st : SessionState) (s : String) :
    (stepSession st (.edit s)).editedCode = s := by
  simp only [stepSession]
  split
  · rfl
  · cases computeBody st.code s
    rfl

theorem exportsFnStage_none_snd (p : String) :
    (exportsFnStage (p, none)).2 =
      matchFirstS (fun l => (matchDefaultFunctionDecl l).map Prod.fst) p := by
  simp only [exportsFnStage]
  cases matchFirstS (fun l => (matchDefaultFunctionDecl l).map Prod.fst) p <;> rfl

theorem exportsConstStage_snd (pr : String × Option String) :
    (exportsConstStage pr).2 =
      match matchFirstS (fun l => (matchDefaultConstDecl l).map Prod.fst) pr.1 with
      | some k => some k
      | none => pr.2 := by
  unfold exportsConstStage
  cases matchFirstS (fun l => (matchDefaultConstDecl l).map Prod.fst) pr.1 <;> rfl

theorem exportsClassStage_snd (pr : String × Option String) :
    (exportsClassStage pr).2 =
      match matchFirstS (fun l => (matchDefaultClassDecl l).map Prod.fst) pr.1 with
      | some c => some c
      | none => pr.2 := by
  unfold exportsClassStage
  cases matchFirstS (fun l => (matchDefaultClassDecl l).map Prod.fst) pr.1 <;> rfl

theorem exportsTrailingStage_snd (pr : String × Option String) :
    (exportsTrailingStage pr).2 =
      match pr.2 with
      | some m => some m
      | none => matchFirstS matchTrailingDefaultEOS pr.1 := by
  unfold exportsTrailingStage
  cases matchFirstS matchTrailingDefaultEOS pr.1 <;> cases h : pr.2 <;> simp [h]

/-! ## The claims -/

set_option maxHeartbeats 3200000

/-- C1, as amended: for every editing session, an edited text whose pipeline
run fails at any stage leaves the originally loaded example component on
display — the fallback is always the original component, not the most recent
successful compile — and the diagnostic becomes the failure's message. -/
theorem c1_failure_displays_original (b : String) (evs : List EditEvent) (s m : String)
    (h1 : s ≠ "") (h2 : s ≠ (runSession b evs).code)
    (h3 : runPipeline s = .error m) :
    renderOf (stepSession (runSession b evs) (.edit s)) =
      { component := OriginalComponent, error := some m } := by
  unfold renderOf
  rw [stepSession_code, stepSession_editedCode,
    computeBody_of_error (runSession b evs).code s m h1 h2 h3]

/-- C1, counterexample to the claim as stated: after a successful edit the
session displays the freshly compiled component (not a host atom), yet a
subsequent failing edit displays the original host component — the display
does not stay at the last successfully compiled component. -/
theorem c1_counterexample :
    (renderOf (runSession "O" [EditEvent.edit widgetSrc])).error = none ∧
    isHostVal (renderOf (runSession "O" [EditEvent.edit widgetSrc])).component = false ∧
    (renderOf (runSession "O" [EditEvent.edit widgetSrc, EditEvent.edit "x"])).component
      = OriginalComponent ∧
    isHostVal OriginalComponent = true ∧
    (renderOf (runSession "O" [EditEvent.edit widgetSrc, EditEvent.edit "x"])).error
      = some "x is not defined" :=
  ⟨rfl, rfl, rfl, rfl, rfl⟩

/-- C1 witness: the amended theorem applied at a concrete failing edit. -/
theorem c1_failure_witness :
    ("x" : String) ≠ "" ∧ ("x" : String) ≠ (runSession "O" []).code ∧
    runPipeline "x" = Except.error "x is not defined" ∧
    renderOf (stepSession (runSession "O" []) (.edit "x")) =
      { component := OriginalComponent, error := some "x is not defined" } :=
  ⟨by decide, by decide, rfl,
    c1_failure_displays_original "O" [] "x" "x is not defined" (by decide) (by decide) rfl⟩

/-- C2: every exception raised inside the pipeline (rewriting, compilation,
scope construction or invocation all live inside `runPipeline`, whose
`Except` value is the only error channel) is caught by the recompiler and
becomes a failure outcome carrying exactly that exception's message; the
recompiler itself is a total function into `RenderOutcome`, so no exception
reaches the host page. -/
theorem c2_pipeline_errors_caught (c e m : String) (h1 : e ≠ "") (h2 : e ≠ c)
    (h3 : runPipeline e = .error m) :
    computeBody c e = ({ component := OriginalComponent, error := some m }, true) :=
  computeBody_of_error c e m h1 h2 h3

/-- C2 witness at a concrete throwing text. -/
theorem c2_caught_witness :
    ("x" : String) ≠ "" ∧ ("x" : String) ≠ "O" ∧
    runPipeline "x" = Except.error "x is not defined" ∧
    computeBody "O" "x" =
      ({ component := OriginalComponent, error := some "x is not defined" }, true) :=
  ⟨by decide, by decide, rfl,
    c2_pipeline_errors_caught "O" "x" "x is not defined" (by decide) (by decide) rfl⟩

/-- C3: the combined import `import Foo, { a, b } from "m"` is rewritten into
one default binding with the `.default`-or-namespace fallback and one
destructured named binding from the same resolution call, and executing the
rewritten text against the stub registry `{ m: { default: X, a: 1, b: 2 } }`
binds `Foo` to `X`, `a` to `1` and `b` to `2` — the bindings a native module
system would produce. -/
theorem c3_mixed_import_rewrite :
    rewriteImports "import Foo, \x7b a, b \x7d from \"m\"" =
      "const Foo = require('m').default || require('m'); const \x7b a, b \x7d = require('m')" ∧
    (execBindings (rewriteImports "import Foo, \x7b a, b \x7d from \"m\"") stubRegistry).map
        (fun env => (env.lookup "Foo", env.lookup "a", env.lookup "b")) =
      Except.ok (some stubX, some (JSValue.num 1), some (JSValue.num 2)) :=
  ⟨rfl, rfl⟩

/-- C4, counterexample to the claim as stated: on a source with both a
function-default and a class-default, the function pattern matches first (it
is checked first and captures `A`), yet the recorded default binding name is
`B` — the later class-pattern match overwrote it instead of being ignored. -/
theorem c4_counterexample :
    matchFirstS (fun l => (matchDefaultFunctionDecl l).map Prod.fst) dupDefaultSrc = some "A" ∧
    matchFirstS (fun l => (matchDefaultClassDecl l).map Prod.fst) dupDefaultSrc = some "B" ∧
    (processExports dupDefaultSrc).2 = some "B" :=
  ⟨rfl, rfl, rfl⟩

/-- C4, as amended: a complete characterization of the recorded default
binding name.  Among the three declaration patterns, checked in the fixed
order function, const, class — each on the text left by the previous
stage's replacement — the last one that matches determines the recorded
name (each later declaration-pattern match overwrites the earlier ones):
a class-pattern capture wins outright, a const-pattern capture wins when
the class pattern does not match, and the function-pattern capture stands
only when neither later pattern matches.  The trailing-identifier pattern
is ignored whenever any declaration pattern matched, and is recorded
exactly when none of them did. -/
theorem c4_last_decl_pattern_wins (p : String) :
    (processExports p).2 =
      match matchFirstS (fun l => (matchDefaultClassDecl l).map Prod.fst)
              ((exportsConstStage (exportsFnStage (p, none))).1),
            matchFirstS (fun l => (matchDefaultConstDecl l).map Prod.fst)
              ((exportsFnStage (p, none)).1),
            matchFirstS (fun l => (matchDefaultFunctionDecl l).map Prod.fst) p with
      | some c, _, _ => some c
      | none, some k, _ => some k
      | none, none, some f => some f
      | none, none, none =>
          matchFirstS matchTrailingDefaultEOS
            ((exportsClassStage (exportsConstStage (exportsFnStage (p, none)))).1) := by
  show (exportsTrailingStage (exportsClassStage (exportsConstStage (exportsFnStage (p, none))))).2 = _
  rw [exportsTrailingStage_snd, exportsClassStage_snd, exportsConstStage_snd,
    exportsFnStage_none_snd]
  cases matchFirstS (fun l => (matchDefaultClassDecl l).map Prod.fst)
      ((exportsConstStage (exportsFnStage (p, none))).1) <;>
    cases matchFirstS (fun l => (matchDefaultConstDecl l).map Prod.fst)
      ((exportsFnStage (p, none)).1) <;>
    cases matchFirstS (fun l => (matchDefaultFunctionDecl l).map Prod.fst) p <;>
    rfl

/-- C4 witness: the characterization applied at concrete sources — the
class capture `B` overwrites the function capture `A`, and the trailing
reference `A` is recorded when no declaration pattern matches. -/
theorem c4_last_decl_witness :
    (processExports dupDefaultSrc).2 = some "B" ∧
    (processExports trailingRefSrc).2 = some "A" := by
  refine ⟨?_, ?_⟩
  · rw [c4_last_decl_pattern_wins]
    rfl
  · rw [c4_last_decl_pattern_wins]
    rfl

/-- C5, as amended: recomputation is skipped exactly by the memo — when the
key (edited text, baseline text) is unchanged from the previous render the
state is untouched — and the pipeline is additionally skipped when the
edited text is empty or equals the originally loaded baseline text; equality
with the text last successfully compiled plays no role. -/
theorem c5_memoized_recompute (st : SessionState) (s : String) :
    (st.prevDeps = some (s, st.code) → stepSession st (.edit s) = { st with editedCode := s }) ∧
    ((s = "" ∨ s = st.code) → (stepSession st (.edit s)).pipelineRuns = st.pipelineRuns) := by
  constructor
  · intro h
    simp only [stepSession]
    rw [if_pos h]
  · intro h
    simp only [stepSession]
    split
    · rfl
    · rw [computeBody_guard_skip st.code s h]
      rfl

/-- C5, counterexample to the claim as stated: after a successful edit and a
failing one, the last successfully compiled text is `widgetSrc`, yet editing
back to `widgetSrc` runs the pipeline again (the run counter increments) and
changes the RenderState (the diagnostic clears). -/
theorem c5_counterexample :
    (runSession "O" [EditEvent.edit widgetSrc, EditEvent.edit "x"]).lastSuccessText
      = some widgetSrc ∧
    (runSession "O" [EditEvent.edit widgetSrc, EditEvent.edit "x"]).pipelineRuns = 2 ∧
    (stepSession (runSession "O" [EditEvent.edit widgetSrc, EditEvent.edit "x"])
      (.edit widgetSrc)).pipelineRuns = 3 ∧
    (renderOf (runSession "O" [EditEvent.edit widgetSrc, EditEvent.edit "x"])).error
      = some "x is not defined" ∧
    (renderOf (stepSession (runSession "O" [EditEvent.edit widgetSrc, EditEvent.edit "x"])
      (.edit widgetSrc))).error = none :=
  ⟨rfl, rfl, rfl, rfl, rfl⟩

/-- C5 witness: the amended theorem applied at the initial state, for an
unchanged memo key and for the baseline/empty texts. -/
theorem c5_memoized_witness :
    (initSession "O").prevDeps = some ("O", (initSession "O").code) ∧
    stepSession (initSession "O") (.edit "O") = { initSession "O" with editedCode := "O" } ∧
    (("" : String) = "" ∨ ("" : String) = (initSession "O").code) ∧
    (stepSession (initSession "O") (.edit "")).pipelineRuns = (initSession "O").pipelineRuns :=
  ⟨rfl, (c5_memoized_recompute (initSession "O") "O").1 rfl, Or.inl rfl,
    (c5_memoized_recompute (initSession "O") "").2 (Or.inl rfl)⟩

/-- C6: in every reachable state of an editing session the displayed
component is one that successfully executed at some point — the originally
loaded pre-edit component, or the value of a successful pipeline run; a
failing edit never blanks the display. -/
theorem c6_display_invariant (b : String) (evs : List EditEvent) :
    (renderOf (runSession b evs)).component = OriginalComponent ∨
    ∃ s, runPipeline s = .ok ((renderOf (runSession b evs)).component) := by
  rcases computeBody_component_cases (runSession b evs).code (runSession b evs).editedCode with h | h
  · exact Or.inl h
  · exact Or.inr ⟨(runSession b evs).editedCode, h⟩

/-- C7, counterexample to the claim as stated: `toString` is absent from
the Capability Registry's table, yet `require("toString")` does not fail —
the object read `moduleMap["toString"]` finds the truthy value inherited
from `Object.prototype` and `requireFn` returns it. -/
theorem c7_counterexample :
    moduleMap.lookup "toString" = none ∧
    requireLookup moduleMap "toString" =
      Except.ok (JSValue.hostVal "Object.prototype.toString") ∧
    jsToBool (JSValue.hostVal "Object.prototype.toString") = true :=
  ⟨rfl, rfl, rfl⟩

/-- C7, as amended: every module name absent from the Capability Registry's
table and not among the property names a plain object inherits from
`Object.prototype` fails to resolve with an error naming the requested
module (inherited names such as `toString` or `constructor` instead
resolve to the truthy inherited value); the edited text
`import X from "nonexistent-module"` yields the diagnostic
`Cannot find module: nonexistent-module` (which contains the literal module
name). -/
theorem c7_unresolvable_dependency (name : String)
    (h1 : moduleMap.lookup name = none) (h2 : objectProtoProps.lookup name = none) :
    requireLookup moduleMap name = .error ("Cannot find module: " ++ name) ∧
    runPipeline "import X from \"nonexistent-module\"" =
      .error "Cannot find module: nonexistent-module" ∧
    (computeBody "O" "import X from \"nonexistent-module\"").1.error =
      some "Cannot find module: nonexistent-module" := by
  refine ⟨?_, rfl, rfl⟩
  unfold requireLookup objLitGet
  rw [h1, h2]

/-- C7 witness at the concrete absent module name. -/
theorem c7_unresolvable_witness :
    moduleMap.lookup "nonexistent-module" = none ∧
    objectProtoProps.lookup "nonexistent-module" = none ∧
    requireLookup moduleMap "nonexistent-module" =
      Except.error "Cannot find module: nonexistent-module" :=
  ⟨rfl, rfl, (c7_unresolvable_dependency "nonexistent-module" rfl rfl).1⟩

/-- C8: whenever execution succeeds but the produced exported value is not
callable, the pipeline fails with the diagnostic that the component must be
a function (`组件必须是一个函数`), and — through the recompiler's catch — the
display falls back to the prior component. -/
theorem c8_noncallable_export_rejected (t : String) (comp : JSValue)
    (h1 : executePipelineValue t = .ok comp) (h2 : typeofV comp ≠ "function") :
    runPipeline t = .error "组件必须是一个函数" := by
  unfold runPipeline
  rw [h1]
  exact if_neg h2

/-- C8 witness: `export default 42` produces the non-callable `42`, the
pipeline reports the non-function diagnostic, and the display falls back to
the original component. -/
theorem c8_noncallable_witness :
    executePipelineValue "export default 42" = Except.ok (JSValue.num 42) ∧
    typeofV (JSValue.num 42) ≠ "function" ∧
    runPipeline "export default 42" = Except.error "组件必须是一个函数" ∧
    (computeBody "O" "export default 42").1 =
      { component := OriginalComponent, error := some "组件必须是一个函数" } :=
  ⟨rfl, by decide,
    c8_noncallable_export_rejected "export default 42" (JSValue.num 42) rfl (by decide), rfl⟩

/-- C9: for `export default function Widget(){ return 1 }` the rewriter
records `Widget` as the default binding name, the compiled unit ends with
the guarded statement assigning the module's exported-value slot to that
identifier, and executing it yields a callable whose invocation returns 1. -/
theorem c9_default_binding_capture :
    compileUnit widgetSrc = Except.ok (widgetCompiled, some "Widget") ∧
    (runPipeline widgetSrc).map typeofV = Except.ok "function" ∧
    (runPipeline widgetSrc >>= fun c => invokeComponent c) = Except.ok (JSValue.num 1) :=
  ⟨rfl, rfl, rfl⟩

/-- C10: the empty edited text (including the pre-edit initial state) skips
the rewrite-compile-execute pipeline entirely and displays the originally
loaded component with no diagnostic, so emptying the editor never produces
an error banner and never blanks the display. -/
theorem c10_empty_text_skips_pipeline :
    (∀ c : String, computeBody c "" = ({ component := OriginalComponent, error := none }, false)) ∧
    (∀ b : String, renderOf (initSession b) = { component := OriginalComponent, error := none } ∧
      (initSession b).pipelineRuns = 0) ∧
    (∀ (b : String) (evs : List EditEvent),
      renderOf (stepSession (runSession b evs) (.edit "")) =
        { component := OriginalComponent, error := none }) := by
  refine ⟨fun c => ?_, fun b => ⟨?_, rfl⟩, fun b evs => ?_⟩
  · rw [computeBody_guard_skip c "" (Or.inl rfl)]
  · unfold renderOf initSession
    rw [computeBody_guard_skip _ _ (Or.inr rfl)]
  · unfold renderOf
    rw [stepSession_code, stepSession_editedCode,
      computeBody_guard_skip _ _ (Or.inl rfl)]
